import Mathlib

/-!
Verification of the Divvy bike-share reporting pipeline
(`src/divvy_bike_share_analysis.py` and `src/divvy_bike_export_excel.py`)
against its natural-language specification.

The two Python scripts are shallowly embedded below.  A trip record is a
row of the raw CSV; timestamps are modelled as epoch seconds (an integer),
since `pd.to_datetime` yields a linearly ordered time point and every
computation in the scripts uses only differences, hour-of-day and
day-of-week of such points.  Durations are rationals (minutes, possibly
fractional, exactly as `total_seconds() / 60` produces).  Python's `/`,
which raises `ZeroDivisionError` on a zero denominator, is modelled by
`pydiv` returning `Except`; `iloc[0]` on an empty selection, which raises
`IndexError`, is modelled the same way.
-/

namespace Divvy

/-- A raw trip record, one row of an input CSV.  `none` models a
missing value (`NaN`): `ride_id`, the two timestamps and the two station
names are nullable in the raw data. -/
structure RawRecord where
  ride_id : Option String
  started_at : Option Int
  ended_at : Option Int
  start_station_name : Option String
  end_station_name : Option String
  member_casual : String
deriving DecidableEq

/-- A record admitted into the canonical dataset, with the derived
columns the Cleaner adds (analysis script lines 96-114). -/
structure CleanRecord where
  ride_id : String
  started_at : Int
  ended_at : Int
  trip_duration_minutes : ℚ
  start_station_name : String
  end_station_name : String
  member_casual : String
  membership_indicator : Int
deriving DecidableEq

/-- `(ended_at - started_at).dt.total_seconds() / 60` (line 103): the
exact quotient of the signed second count by 60.  Stated via `Rat.divInt`
(the literal fraction) so that it computes; `rawDuration_eq_div` shows it
is the rational division the script performs. -/
def rawDuration (s e : Int) : ℚ := Rat.divInt (e - s) 60

/-- Station-name normalisation: `fillna("Unknown")` then
`replace('', "Unknown")` (lines 108-111). -/
def normStation : Option String → String
  | none => "Unknown"
  | some t => if t = "" then "Unknown" else t

/-- The per-record cleaning of analysis script lines 96-114:
drop when `ride_id`, `started_at` or `ended_at` is missing (line 96);
compute the duration (line 103); drop unless `0 < duration ≤ 24*60`
(lines 104-105); normalise the station names (lines 108-111); derive the
membership indicator (line 114). -/
def cleanRecord (r : RawRecord) : Option CleanRecord :=
  match r.ride_id, r.started_at, r.ended_at with
  | some rid, some s, some e =>
      if 0 < rawDuration s e ∧ rawDuration s e ≤ 1440 then
        -- the script writes the bound as `24*60` minutes
        some { ride_id := rid
               started_at := s
               ended_at := e
               trip_duration_minutes := rawDuration s e
               start_station_name := normStation r.start_station_name
               end_station_name := normStation r.end_station_name
               member_casual := r.member_casual
               membership_indicator :=
                 if r.member_casual = "member" then 1 else 0 }
      else none
  | _, _, _ => none

/-- Cleaning a whole file: the row-wise filters and column assignments of
lines 96-114 act record by record, so a cleaned table is the
`filterMap` of the per-record cleaner. -/
def cleanFile (rs : List RawRecord) : List CleanRecord :=
  rs.filterMap cleanRecord

/-- `started_at.dt.hour` (analysis line 147, export line 10). -/
def start_hour_of (r : CleanRecord) : Nat :=
  ((r.started_at.fdiv 3600).emod 24).toNat

/-- `started_at.dt.day_name()` (analysis line 148, export line 11).
Day 0 of the epoch (1970-01-01) was a Thursday, index 3 of the
Monday-first week. -/
def day_name_of (r : CleanRecord) : String :=
  match (((r.started_at.fdiv 86400) + 3).emod 7).toNat with
  | 0 => "Monday"
  | 1 => "Tuesday"
  | 2 => "Wednesday"
  | 3 => "Thursday"
  | 4 => "Friday"
  | 5 => "Saturday"
  | _ => "Sunday"

/-- The fixed weekday ordering both scripts declare
(analysis line 345, export line 78). -/
def day_order : List String :=
  ["Monday", "Tuesday", "Wednesday", "Thursday", "Friday", "Saturday",
   "Sunday"]

/-- Python's true division: `ZeroDivisionError` on a zero denominator,
otherwise the exact quotient. -/
def pydiv (a b : ℚ) : Except String ℚ :=
  if b = 0 then .error "ZeroDivisionError" else .ok (a / b)

/-- `len(df)` (analysis line 182, export line 28). -/
def total_trips (ds : List CleanRecord) : Nat := ds.length

/-- `df['started_at'].max() - df['started_at'].min()` in seconds;
`none` models the `NaT` both reductions yield on an empty frame. -/
def span_seconds (ds : List CleanRecord) : Option Int :=
  match (ds.map (·.started_at)).max?, (ds.map (·.started_at)).min? with
  | some mx, some mn => some (mx - mn)
  | _, _ => none

/-- Distinct keys of a pandas `groupby`/`nunique`/`value_counts`, in
first-occurrence order (pandas sorts group keys, but no fact proved here
depends on key order, only on the key set). -/
def groupKeys (f : CleanRecord → α) [DecidableEq α] (ds : List CleanRecord) :
    List α :=
  (ds.map f).dedup

/-- The size of the group of key `k` under key function `f`. -/
def groupSize (f : CleanRecord → α) [DecidableEq α] (ds : List CleanRecord)
    (k : α) : Nat :=
  (ds.filter (fun r => decide (f r = k))).length

/-- Insert a `(name, count)` pair into a count-descending list. -/
def insertByCountDesc (x : String × Nat) :
    List (String × Nat) → List (String × Nat)
  | [] => [x]
  | y :: ys => if y.2 < x.2 then x :: y :: ys else y :: insertByCountDesc x ys

/-- `Series.value_counts()`: one row per distinct value with its number of
occurrences, sorted by count descending. -/
def value_counts (ds : List CleanRecord) (f : CleanRecord → String) :
    List (String × Nat) :=
  ((groupKeys f ds).map (fun k => (k, groupSize f ds k))).foldr
    insertByCountDesc []

namespace Analysis

/-! Definitions from `divvy_bike_share_analysis.py`. -/

open Divvy

/-- Lines 76-121: each raw file either fails to parse (the `except` arm
logs and continues) or yields its cleaned table.  A file is modelled by
its parse outcome. -/
def processed_dataframes (files : List (Except String (List RawRecord))) :
    List (List CleanRecord) :=
  files.filterMap (fun f => f.toOption.map cleanFile)

/-- Lines 72 and 124-138: load the cache when it exists; otherwise clean
every parsed file, `exit(1)` when none succeeded, else concatenate
(`pd.concat`, line 125). -/
def combine (cache : Option (List CleanRecord))
    (files : List (Except String (List RawRecord))) :
    Except String (List CleanRecord) :=
  match cache with
  | some ds => .ok ds
  | none =>
      let ps := processed_dataframes files
      if ps.isEmpty then .error "exit 1: no data files were successfully processed"
      else .ok ps.flatten

/-- `analysis_period_days` (line 188): the min-to-max span of
`started_at` in exact fractional days, `total_seconds() / (24*3600)`. -/
def analysis_period_days (ds : List CleanRecord) : Option ℚ :=
  (span_seconds ds).map (fun s : Int => (s : ℚ) / 86400)

/-- `daily_trip_efficiency = total_trips / analysis_period_days`
(line 189).  On an empty frame the span is `NaT` and the surrounding
script has already failed (line 163); that case is mapped to an error. -/
def daily_trip_efficiency (ds : List CleanRecord) : Except String ℚ :=
  match analysis_period_days ds with
  | none => .error "NaT"
  | some p => pydiv (total_trips ds) p

/-- The records whose start station is not the `"Unknown"` sentinel
(the filter of lines 192 and 506). -/
def known_start (ds : List CleanRecord) : List CleanRecord :=
  ds.filter (fun r => decide (r.start_station_name ≠ "Unknown"))

/-- `station_utilization_data` (line 192): per-station trip counts of the
non-Unknown start stations (`groupby('start_station_name').size()`). -/
def station_utilization_data (ds : List CleanRecord) : List Nat :=
  (groupKeys (·.start_station_name) (known_start ds)).map
    (fun k => groupSize (·.start_station_name) (known_start ds) k)

/-- `average_station_efficiency = station_utilization_data.mean()`
(line 193).  A pandas mean of an empty series is `NaN`, not an error;
`none` models that `NaN`. -/
def average_station_efficiency (ds : List CleanRecord) : Option ℚ :=
  let cs := station_utilization_data ds
  if cs.isEmpty then none
  else some ((cs.sum : ℚ) / (cs.length : ℚ))

/-- `optimal_duration_trips` (line 197): trips with duration in the
closed interval `[5, 60]` minutes. -/
def optimal_duration_trips (ds : List CleanRecord) : Nat :=
  (ds.filter (fun r =>
    decide (5 ≤ r.trip_duration_minutes ∧ r.trip_duration_minutes ≤ 60))).length

/-- `user_satisfaction_rate = optimal_duration_trips / total_trips * 100`
(line 198). -/
def user_satisfaction_rate (ds : List CleanRecord) : Except String ℚ :=
  (pydiv (optimal_duration_trips ds) (total_trips ds)).map (fun x => x * 100)

/-- `real_stations_start` (line 506): top 10 of the `value_counts` of the
start stations of the non-Unknown-start records. -/
def real_stations_start (ds : List CleanRecord) : List (String × Nat) :=
  (value_counts (known_start ds) (·.start_station_name)).take 10

/-- The records whose end station is not `"Unknown"` (line 507). -/
def known_end (ds : List CleanRecord) : List CleanRecord :=
  ds.filter (fun r => decide (r.end_station_name ≠ "Unknown"))

/-- `real_stations_end` (line 507): top 10 of the `value_counts` of the
end stations of the non-Unknown-end records. -/
def real_stations_end (ds : List CleanRecord) : List (String × Nat) :=
  (value_counts (known_end ds) (·.end_station_name)).take 10

/-- The KPI stage of the script (lines 161-198) run on the combined
dataset, keeping exactly the computations that can raise: `strftime` on
the `NaT` min of an empty frame (line 163) and the two Python divisions
(lines 189 and 198; the second cannot fail once the frame is nonempty).
The means of lines 164-165 and 183-185 and the station mean of line 193
(`NaN` on an empty selection, never an error) are total and elided. -/
def kpiStage (ds : List CleanRecord) : Except String ℚ :=
  if ds.isEmpty then .error "ValueError: NaTType does not support strftime"
  else do
    let eff ← daily_trip_efficiency ds
    let sat ← user_satisfaction_rate ds
    .ok (eff + sat)

/-- The process exit status of one run of the script: `1` from the
explicit `exit(1)` (line 134) or from an uncaught exception in the KPI
stage, `0` when the run completes. -/
def scriptExit (cache : Option (List CleanRecord))
    (files : List (Except String (List RawRecord))) : Nat :=
  match combine cache files with
  | .error _ => 1
  | .ok ds =>
      match kpiStage ds with
      | .error _ => 1
      | .ok _ => 0

end Analysis

namespace ExportExcel

/-! Definitions from `divvy_bike_export_excel.py`, which loads the same
canonical dataset (line 6) and recomputes the derived temporal columns
(lines 9-12). -/

open Divvy

/-- `date_range = (started_at.max() - started_at.min()).days` (line 36):
the whole-day floor of the span. -/
def date_range (ds : List CleanRecord) : Option Int :=
  (span_seconds ds).map (fun s => s.fdiv 86400)

/-- `daily_efficiency = total_trips / date_range` (line 37). -/
def daily_efficiency (ds : List CleanRecord) : Except String ℚ :=
  match date_range ds with
  | none => .error "NaT"
  | some d => pydiv (total_trips ds) (d : ℚ)

/-- `real_stations` (line 40): `nunique()` of the start stations other
than `"Unknown"`. -/
def real_stations (ds : List CleanRecord) : Nat :=
  (groupKeys (·.start_station_name)
    (ds.filter (fun r => decide (r.start_station_name ≠ "Unknown")))).length

/-- `station_efficiency = total_trips / real_stations` (line 41). -/
def station_efficiency (ds : List CleanRecord) : Except String ℚ :=
  pydiv (total_trips ds) (real_stations ds)

/-- `optimal_trips` (line 44), identical to the analysis script's
filter. -/
def optimal_trips (ds : List CleanRecord) : Nat :=
  (ds.filter (fun r =>
    decide (5 ≤ r.trip_duration_minutes ∧ r.trip_duration_minutes ≤ 60))).length

/-- `satisfaction_rate = (optimal_trips / total_trips) * 100`
(line 45). -/
def satisfaction_rate (ds : List CleanRecord) : Except String ℚ :=
  (pydiv (optimal_trips ds) (total_trips ds)).map (fun x => x * 100)

/-- `hourly_data` (lines 62-66) restricted to its `total_trips` column:
one row per observed start hour with its trip count.  (The mean-duration
and mean-membership columns play no part in any claim.) -/
def hourly_data (ds : List CleanRecord) : List (Nat × Nat) :=
  (groupKeys start_hour_of ds).map
    (fun h => (h, groupSize start_hour_of ds h))

/-- `hourly_data[hourly_data['start_hour'] == h]['total_trips'].iloc[0]`
(lines 260-261): the first matching row, `IndexError` when the hour was
never observed. -/
def peak_hour_trips (ds : List CleanRecord) (h : Nat) : Except String Nat :=
  match (hourly_data ds).find? (fun p => decide (p.1 = h)) with
  | none => .error "IndexError"
  | some p => .ok p.2

/-- `daily_data` (lines 79-86) restricted to its `total_trips` column:
`groupby('day_of_week')` counts, reordered by the categorical
Monday-first sort of lines 85-86.  Every key `day_name_of` produces lies
in `day_order`, so the categorical sort lists the observed keys in
`day_order` order. -/
def daily_data (ds : List CleanRecord) : List (String × Nat) :=
  (day_order.filter (fun d => decide (d ∈ groupKeys day_name_of ds))).map
    (fun d => (d, groupSize day_name_of ds d))

/-- `start_stations` (lines 152-154): top 20 of the `value_counts` of
all start stations (no `"Unknown"` filter), each with its percentage
`count / total_trips * 100` of the whole dataset. -/
def start_stations (ds : List CleanRecord) : List (String × Nat × ℚ) :=
  ((value_counts ds (·.start_station_name)).take 20).map
    (fun p => (p.1, p.2, ((p.2 : ℚ) / (total_trips ds : ℚ)) * 100))

/-- `end_stations` (lines 163-165), same shape for end stations. -/
def end_stations (ds : List CleanRecord) : List (String × Nat × ℚ) :=
  ((value_counts ds (·.end_station_name)).take 20).map
    (fun p => (p.1, p.2, ((p.2 : ℚ) / (total_trips ds : ℚ)) * 100))

end ExportExcel

/-! ### Concrete data used by the witnesses and counterexamples -/

/-- A raw record with every key field present. -/
def mkRaw (i : String) (s e : Int) (st en : Option String) (mc : String) :
    RawRecord :=
  { ride_id := some i, started_at := some s, ended_at := some e,
    start_station_name := st, end_station_name := en, member_casual := mc }

/-- A 10-minute member trip between named stations. -/
def raw_10min : RawRecord := mkRaw "r1" 0 600 (some "A") (some "B") "member"

/-- A 70-minute casual trip: admitted by the Cleaner, outside the
5-60 minute satisfaction window. -/
def raw_70min : RawRecord := mkRaw "r2" 0 4200 (some "A") (some "B") "casual"

/-- A 1500-minute trip: over the 1440-minute bound, dropped by the
Cleaner. -/
def raw_overlong : RawRecord :=
  mkRaw "r3" 0 90000 (some "A") (some "B") "member"

/-- The spec's satisfaction scenario: durations 10, 70 and 1500
minutes. -/
def scenario_raws : List RawRecord := [raw_10min, raw_70min, raw_overlong]

/-- A valid raw record whose user category is neither `member` nor
`casual`: nothing in the Cleaner rejects or repairs it. -/
def raw_corporate : RawRecord :=
  mkRaw "r4" 0 600 (some "A") (some "B") "corporate"

/-- A valid raw record with an empty-string start station and a missing
end station. -/
def raw_noStation : RawRecord := mkRaw "r5" 0 600 (some "") none "member"

/-- A raw record with a missing start station. -/
def raw_unknownStart : RawRecord := mkRaw "u1" 0 600 none (some "B") "casual"

/-- The cleaned record the Cleaner produces from `raw_10min`. -/
def clean_10min : CleanRecord :=
  { ride_id := "r1", started_at := 0, ended_at := 600,
    trip_duration_minutes := 10, start_station_name := "A",
    end_station_name := "B", member_casual := "member",
    membership_indicator := 1 }

/-- The cleaned record the Cleaner produces from `raw_noStation`. -/
def clean_noStation : CleanRecord :=
  { ride_id := "r5", started_at := 0, ended_at := 600,
    trip_duration_minutes := 10, start_station_name := "Unknown",
    end_station_name := "Unknown", member_casual := "member",
    membership_indicator := 1 }

/-- One admitted record with known stations: a one-row canonical
dataset. -/
def dsA : List CleanRecord := cleanFile [raw_10min]

/-- A canonical dataset in which one trip has the `"Unknown"` start
station and one starts at station `"A"`. -/
def dsStation : List CleanRecord := cleanFile [raw_unknownStart, raw_10min]

/-- A canonical dataset whose start timestamps span 36 hours
(1.5 days): 0 and 129600 seconds. -/
def dsSpan : List CleanRecord :=
  cleanFile [raw_10min, mkRaw "r6" 129600 130200 (some "A") (some "B") "casual"]

/-- A canonical dataset whose start timestamps span exactly one whole
day: 0 and 86400 seconds. -/
def dsWholeDay : List CleanRecord :=
  cleanFile [raw_10min, mkRaw "r7" 86400 87000 (some "A") (some "B") "casual"]

/-! ### General lemmas about the embedded operations -/

theorem rawDuration_eq_div (s e : Int) :
    rawDuration s e = ((e - s : Int) : ℚ) / 60 := by
  rw [rawDuration, Rat.divInt_eq_div]
  norm_num

/-- Inverting the per-record cleaner: an admitted record came from a raw
record with all key fields present, an in-range duration, and the
cleaned fields are exactly the derived ones. -/
theorem cleanRecord_some_elim {r : RawRecord} {c : CleanRecord}
    (h : cleanRecord r = some c) :
    ∃ rid s e, r.ride_id = some rid ∧ r.started_at = some s ∧
      r.ended_at = some e ∧ 0 < rawDuration s e ∧ rawDuration s e ≤ 1440 ∧
      c = { ride_id := rid, started_at := s, ended_at := e,
            trip_duration_minutes := rawDuration s e,
            start_station_name := normStation r.start_station_name,
            end_station_name := normStation r.end_station_name,
            member_casual := r.member_casual,
            membership_indicator :=
              if r.member_casual = "member" then 1 else 0 } := by
  rcases hrid : r.ride_id with _ | rid <;>
    rcases hs : r.started_at with _ | s <;>
    rcases he : r.ended_at with _ | e <;>
    simp only [cleanRecord, hrid, hs, he] at h <;>
    try exact Option.noConfusion h
  by_cases hcond : 0 < rawDuration s e ∧ rawDuration s e ≤ 1440
  · rw [if_pos hcond] at h
    exact ⟨rid, s, e, rfl, rfl, rfl, hcond.1, hcond.2,
      (Option.some_injective _ h).symm⟩
  · rw [if_neg hcond] at h
    exact Option.noConfusion h

theorem normStation_ne_empty (o : Option String) : normStation o ≠ "" := by
  rcases o with _ | t
  · simp [normStation]
  · rw [normStation]
    split_ifs with h
    · simp
    · exact h

theorem normStation_eq_or (o : Option String) :
    normStation o = "Unknown" ∨ o = some (normStation o) := by
  rcases o with _ | t
  · exact Or.inl rfl
  · rw [normStation]
    split_ifs with h
    · exact Or.inl rfl
    · exact Or.inr rfl

theorem normStation_of_missing {o : Option String}
    (h : o = none ∨ o = some "") : normStation o = "Unknown" := by
  rcases h with h | h <;> rw [h] <;> simp [normStation]

theorem length_filter_add_length_filter_not (ds : List CleanRecord)
    (p : CleanRecord → Bool) :
    (ds.filter p).length + (ds.filter (fun r => !p r)).length =
      ds.length := by
  induction ds with
  | nil => rfl
  | cons a l ih => cases h : p a <;> simp [List.filter_cons, h] <;> omega

/-- Grouping partitions: over any duplicate-free key list covering the
image of `f`, the group sizes sum to the number of records. -/
theorem sum_map_groupSize {α : Type _} [DecidableEq α] (f : CleanRecord → α) :
    ∀ (ks : List α) (ds : List CleanRecord), ks.Nodup →
      (∀ r ∈ ds, f r ∈ ks) →
      (ks.map (groupSize f ds)).sum = ds.length := by
  intro ks
  induction ks with
  | nil =>
      intro ds _ hcov
      cases ds with
      | nil => rfl
      | cons a l => exact absurd (hcov a (by simp)) (List.not_mem_nil _)
  | cons k ks ih =>
      intro ds hnd hcov
      have hk : k ∉ ks := (List.nodup_cons.mp hnd).1
      have hnd' : ks.Nodup := (List.nodup_cons.mp hnd).2
      have hsz : ∀ k' ∈ ks,
          groupSize f ds k' =
            groupSize f (ds.filter (fun r => !decide (f r = k))) k' := by
        intro k' hk'
        have hne : k' ≠ k := fun hEq => hk (hEq ▸ hk')
        unfold groupSize
        rw [List.filter_filter]
        congr 1
        apply List.filter_congr
        intro r _
        by_cases hfr : f r = k'
        · have hfk : ¬f r = k := fun hc => hne (by rw [← hfr, hc])
          simp [hfr, hfk, hne]
        · simp [hfr]
      have hcov' : ∀ r ∈ ds.filter (fun r => !decide (f r = k)), f r ∈ ks := by
        intro r hr
        have hrds := (List.mem_filter.mp hr).1
        have hrk : ¬f r = k := by simpa using (List.mem_filter.mp hr).2
        rcases List.mem_cons.mp (hcov r hrds) with h | h
        · exact absurd h hrk
        · exact h
      simp only [List.map_cons, List.sum_cons]
      rw [List.map_congr_left hsz, ih _ hnd' hcov']
      exact length_filter_add_length_filter_not ds (fun r => decide (f r = k))

/-- The group sizes over the distinct observed keys sum to the number of
records. -/
theorem sum_groupKeys_map {α : Type _} [DecidableEq α] (f : CleanRecord → α)
    (ds : List CleanRecord) :
    ((groupKeys f ds).map (groupSize f ds)).sum = ds.length :=
  sum_map_groupSize f _ ds (List.nodup_dedup _)
    (fun _ hr => List.mem_dedup.mpr (List.mem_map_of_mem f hr))

theorem day_name_of_mem_day_order (r : CleanRecord) :
    day_name_of r ∈ day_order := by
  unfold day_name_of
  cases h : (((r.started_at.fdiv 86400) + 3).emod 7).toNat with
  | zero => simp [day_order]
  | succ n =>
      rcases n with _ | _ | _ | _ | _ | _ | n <;> simp [day_order]

theorem mem_insertByCountDesc {x y : String × Nat} :
    ∀ {l : List (String × Nat)},
      x ∈ insertByCountDesc y l ↔ x = y ∨ x ∈ l := by
  intro l
  induction l with
  | nil => simp [insertByCountDesc]
  | cons a l ih =>
      rw [insertByCountDesc]
      split_ifs with h
      · simp [List.mem_cons]
      · rw [List.mem_cons, ih, List.mem_cons]
        tauto

theorem mem_sortByCountDesc {x : String × Nat} :
    ∀ {l : List (String × Nat)},
      x ∈ l.foldr insertByCountDesc [] ↔ x ∈ l := by
  intro l
  induction l with
  | nil => simp
  | cons a l ih =>
      rw [List.foldr_cons, mem_insertByCountDesc, ih, List.mem_cons]

/-- A row of a `value_counts` table carries one of the observed
values. -/
theorem mem_value_counts {ds : List CleanRecord} {f : CleanRecord → String}
    {p : String × Nat} (h : p ∈ value_counts ds f) : p.1 ∈ ds.map f := by
  rw [value_counts, mem_sortByCountDesc] at h
  obtain ⟨k, hk, hpk⟩ := List.mem_map.mp h
  have h1 : p.1 = k := by rw [← hpk]
  rw [h1]
  exact List.mem_dedup.mp hk

/-! ### C1 -/

/-- C1: every record admitted into the canonical dataset satisfies
`0 < trip_duration_minutes ≤ 1440`, and the stored duration is exactly
the one computed from the raw timestamps (no clamping); a raw record
whose computed duration is `≤ 0` or `> 1440` is dropped entirely by the
Cleaner. -/
theorem c1_duration_invariant :
    (∀ (rs : List RawRecord) (c : CleanRecord), c ∈ cleanFile rs →
      0 < c.trip_duration_minutes ∧ c.trip_duration_minutes ≤ 1440 ∧
      c.trip_duration_minutes = rawDuration c.started_at c.ended_at) ∧
    (∀ (r : RawRecord) (s e : Int), r.started_at = some s →
      r.ended_at = some e →
      (rawDuration s e ≤ 0 ∨ 1440 < rawDuration s e) →
      cleanRecord r = none) := by
  constructor
  · intro rs c hc
    obtain ⟨r, -, hcr⟩ := List.mem_filterMap.mp hc
    obtain ⟨rid, s, e, -, -, -, hpos, hle, hrec⟩ := cleanRecord_some_elim hcr
    subst hrec
    exact ⟨hpos, hle, rfl⟩
  · intro r s e hs he hbad
    rcases hrid : r.ride_id with _ | rid <;>
      simp only [cleanRecord, hrid, hs, he]
    split_ifs with hcond
    · rcases hbad with hbad | hbad
      · exact absurd hcond.1 (not_lt.mpr hbad)
      · exact absurd hcond.2 (not_le.mpr hbad)
    · rfl

/-- Witness for C1 at concrete inputs: the 10-minute record is admitted
with its exact duration in range, and the 1500-minute record is
dropped. -/
theorem c1_witness :
    (0 < clean_10min.trip_duration_minutes ∧
      clean_10min.trip_duration_minutes ≤ 1440 ∧
      clean_10min.trip_duration_minutes =
        rawDuration clean_10min.started_at clean_10min.ended_at) ∧
    cleanRecord raw_overlong = none :=
  ⟨c1_duration_invariant.1 [raw_10min] clean_10min (by decide),
    c1_duration_invariant.2 raw_overlong 0 90000 rfl rfl
      (Or.inr (by decide))⟩

/-! ### C2 -/

/-- C2: every record in the canonical dataset has non-null, non-empty
station names (non-null by construction: the cleaned field is a plain
string); per record, each cleaned name is either the raw record's own
station name or the sentinel `"Unknown"`, and a missing (`NaN`) or
empty-string raw name always becomes `"Unknown"`. -/
theorem c2_station_names :
    (∀ (rs : List RawRecord) (c : CleanRecord), c ∈ cleanFile rs →
      c.start_station_name ≠ "" ∧ c.end_station_name ≠ "") ∧
    (∀ (r : RawRecord) (c : CleanRecord), cleanRecord r = some c →
      (c.start_station_name = "Unknown" ∨
        r.start_station_name = some c.start_station_name) ∧
      (c.end_station_name = "Unknown" ∨
        r.end_station_name = some c.end_station_name) ∧
      ((r.start_station_name = none ∨ r.start_station_name = some "") →
        c.start_station_name = "Unknown") ∧
      ((r.end_station_name = none ∨ r.end_station_name = some "") →
        c.end_station_name = "Unknown")) := by
  constructor
  · intro rs c hc
    obtain ⟨r, -, hcr⟩ := List.mem_filterMap.mp hc
    obtain ⟨rid, s, e, -, -, -, -, -, hrec⟩ := cleanRecord_some_elim hcr
    subst hrec
    exact ⟨normStation_ne_empty _, normStation_ne_empty _⟩
  · intro r c hcr
    obtain ⟨rid, s, e, -, -, -, -, -, hrec⟩ := cleanRecord_some_elim hcr
    subst hrec
    exact ⟨normStation_eq_or _, normStation_eq_or _,
      fun h => normStation_of_missing h, fun h => normStation_of_missing h⟩

/-- Witness for C2: the record with an empty-string start station and a
missing end station is admitted with both names `"Unknown"`. -/
theorem c2_witness :
    (clean_noStation.start_station_name ≠ "" ∧
      clean_noStation.end_station_name ≠ "") ∧
    ((clean_noStation.start_station_name = "Unknown" ∨
        raw_noStation.start_station_name =
          some clean_noStation.start_station_name) ∧
      (clean_noStation.end_station_name = "Unknown" ∨
        raw_noStation.end_station_name =
          some clean_noStation.end_station_name) ∧
      ((raw_noStation.start_station_name = none ∨
          raw_noStation.start_station_name = some "") →
        clean_noStation.start_station_name = "Unknown") ∧
      ((raw_noStation.end_station_name = none ∨
          raw_noStation.end_station_name = some "") →
        clean_noStation.end_station_name = "Unknown")) :=
  ⟨c2_station_names.1 [raw_noStation] clean_noStation (by decide),
    c2_station_names.2 raw_noStation clean_noStation (by decide)⟩

/-! ### C9 -/

/-- Counterexample to C9: the Cleaner never validates the user-category
field, so a raw record whose category is `"corporate"` is admitted into
the canonical dataset with a category that is neither `member` nor
`casual`. -/
theorem c9_counterexample :
    (cleanFile [raw_corporate]).map (·.member_casual) = ["corporate"] ∧
    ("corporate" : String) ≠ "member" ∧
    ("corporate" : String) ≠ "casual" := by
  refine ⟨by decide, by decide, by decide⟩

/-- C9 as amended: the membership indicator of an admitted record is 1
exactly when its category is `member` and 0 otherwise, and the category
is carried through the Cleaner unchanged — so it is one of
`member`/`casual` whenever the raw record's category is, but nothing
rejects any other value. -/
theorem c9_amended :
    ∀ (r : RawRecord) (c : CleanRecord), cleanRecord r = some c →
      c.member_casual = r.member_casual ∧
      c.membership_indicator =
        (if c.member_casual = "member" then 1 else 0) ∧
      (r.member_casual = "member" ∨ r.member_casual = "casual" →
        c.member_casual = "member" ∨ c.member_casual = "casual") := by
  intro r c hcr
  obtain ⟨rid, s, e, -, -, -, -, -, hrec⟩ := cleanRecord_some_elim hcr
  subst hrec
  exact ⟨rfl, rfl, fun h => h⟩

theorem pydiv_error_iff (a b : ℚ) :
    (∃ msg, pydiv a b = .error msg) ↔ b = 0 := by
  rw [pydiv]
  split_ifs with h
  · exact ⟨fun _ => h, fun _ => ⟨_, rfl⟩⟩
  · constructor
    · rintro ⟨msg, hmsg⟩
      exact hmsg.elim
    · intro hb
      exact absurd hb h

theorem span_seconds_isSome {ds : List CleanRecord} (h : ds ≠ []) :
    ∃ s, span_seconds ds = some s := by
  unfold span_seconds
  rcases hmax : (ds.map (·.started_at)).max? with _ | mx
  · rw [List.max?_eq_none_iff, List.map_eq_nil_iff] at hmax
    exact absurd hmax h
  rcases hmin : (ds.map (·.started_at)).min? with _ | mn
  · rw [List.min?_eq_none_iff, List.map_eq_nil_iff] at hmin
    exact absurd hmin h
  rw [hmax, hmin]
  exact ⟨mx - mn, rfl⟩

theorem analysis_period_days_eq {ds : List CleanRecord} {s : Int}
    (h : span_seconds ds = some s) :
    Analysis.analysis_period_days ds = some ((s : ℚ) / 86400) := by
  unfold Analysis.analysis_period_days
  rw [h]
  rfl

theorem daily_trip_efficiency_eq {ds : List CleanRecord} {p : ℚ}
    (h : Analysis.analysis_period_days ds = some p) :
    Analysis.daily_trip_efficiency ds = pydiv (total_trips ds) p := by
  unfold Analysis.daily_trip_efficiency
  rw [h]

theorem date_range_eq {ds : List CleanRecord} {s : Int}
    (h : span_seconds ds = some s) :
    ExportExcel.date_range ds = some (s.fdiv 86400) := by
  unfold ExportExcel.date_range
  rw [h]
  rfl

theorem daily_efficiency_eq {ds : List CleanRecord} {d : Int}
    (h : ExportExcel.date_range ds = some d) :
    ExportExcel.daily_efficiency ds = pydiv (total_trips ds) (d : ℚ) := by
  unfold ExportExcel.daily_efficiency
  rw [h]

theorem scriptExit_ok {cache : Option (List CleanRecord)}
    {files : List (Except String (List RawRecord))}
    {ds : List CleanRecord}
    (hcb : Analysis.combine cache files = .ok ds) :
    Analysis.scriptExit cache files =
      (match Analysis.kpiStage ds with
        | .error _ => 1
        | .ok _ => 0) := by
  unfold Analysis.scriptExit
  rw [hcb]

/-- A peak-hour row lookup fails exactly when no trip starts in that
hour. -/
theorem peak_hour_trips_error_iff (ds : List CleanRecord) (h : Nat) :
    (∃ msg, ExportExcel.peak_hour_trips ds h = .error msg) ↔
      ∀ r ∈ ds, start_hour_of r ≠ h := by
  rcases hfind : (ExportExcel.hourly_data ds).find?
      (fun p => decide (p.1 = h)) with _ | p
  · have hpeak : ExportExcel.peak_hour_trips ds h = .error "IndexError" := by
      unfold ExportExcel.peak_hour_trips
      rw [hfind]
    have hnone := List.find?_eq_none.mp hfind
    refine ⟨fun _ r hr hh => ?_, fun _ => ⟨_, hpeak⟩⟩
    have hkey : (h, groupSize start_hour_of ds h) ∈
        ExportExcel.hourly_data ds := by
      unfold ExportExcel.hourly_data
      refine List.mem_map_of_mem _ (List.mem_dedup.mpr ?_)
      have hmem := List.mem_map_of_mem start_hour_of hr
      rw [hh] at hmem
      exact hmem
    exact absurd (decide_eq_true rfl) (hnone _ hkey)
  · have hpeak : ExportExcel.peak_hour_trips ds h = .ok p.2 := by
      unfold ExportExcel.peak_hour_trips
      rw [hfind]
    constructor
    · rintro ⟨msg, hmsg⟩
      rw [hpeak] at hmsg
      exact Except.noConfusion hmsg
    · intro hall
      have hp := List.mem_of_find?_eq_some hfind
      have hdec := List.find?_some hfind
      have hph : p.1 = h := of_decide_eq_true hdec
      unfold ExportExcel.hourly_data at hp
      obtain ⟨k, hk, hpk⟩ := List.mem_map.mp hp
      have hk1 : k = p.1 := by rw [← hpk]
      obtain ⟨r, hr, hrk⟩ := List.mem_map.mp (List.mem_dedup.mp hk)
      exact absurd (by rw [hrk, hk1, hph]) (hall r hr)

/-! ### C4 -/

/-- Counterexample to C4: on a dataset whose start timestamps span 36
hours the analysis script divides the 2 trips by 1.5 fractional days
(giving 4/3 trips/day) while the export script divides by
`timedelta.days = 1` (giving 2 trips/day); the two "daily efficiency"
values differ. -/
theorem c4_counterexample :
    Analysis.daily_trip_efficiency dsSpan = .ok (4 / 3) ∧
    ExportExcel.daily_efficiency dsSpan = .ok 2 ∧
    ((4 : ℚ) / 3) ≠ 2 := by
  have htot : total_trips dsSpan = 2 := by decide
  refine ⟨?_, ?_, by norm_num⟩
  · have hspan : span_seconds dsSpan = some 129600 := by decide
    rw [daily_trip_efficiency_eq (analysis_period_days_eq hspan), htot,
      pydiv, if_neg (by norm_num)]
    norm_num
  · have hdr : ExportExcel.date_range dsSpan = some 1 := by decide
    rw [daily_efficiency_eq hdr, htot, pydiv, if_neg (by norm_num)]
    norm_num

/-- C4 as amended: the two "daily efficiency" computations agree exactly
when the min-to-max span of start timestamps is a whole number of days
(its second count divisible by 86400); in general the analysis script
divides by the exact fractional day span and the export script by its
floor. -/
theorem c4_amended :
    ∀ (ds : List CleanRecord) (s : Int), span_seconds ds = some s →
      s.emod 86400 = 0 →
      Analysis.daily_trip_efficiency ds =
        ExportExcel.daily_efficiency ds := by
  intro ds s hs hmod
  obtain ⟨k, hk⟩ := Int.dvd_of_emod_eq_zero hmod
  have h1 : Analysis.analysis_period_days ds = some ((k : ℤ) : ℚ) := by
    rw [analysis_period_days_eq hs]
    congr 1
    rw [hk]
    push_cast
    norm_num
  have h2 : ExportExcel.date_range ds = some k := by
    rw [date_range_eq hs]
    congr 1
    rw [hk]
    exact Int.mul_fdiv_cancel_left k (by norm_num)
  rw [daily_trip_efficiency_eq h1, daily_efficiency_eq h2]

/-- Witness for C4's amended theorem: on the dataset spanning exactly one
day the two scripts compute the same daily efficiency. -/
theorem c4_witness :
    Analysis.daily_trip_efficiency dsWholeDay =
      ExportExcel.daily_efficiency dsWholeDay :=
  c4_amended dsWholeDay 86400 (by decide) (by decide)

/-! ### C6 -/

/-- C6: the divisions and group lookups of the export script fail
loudly, never silently defaulting — `station_efficiency` is an error
(`ZeroDivisionError`) exactly when there are zero distinct non-Unknown
start stations, the peak-hour lookups for hours 8 and 18 are errors
(`IndexError`) exactly when no trip starts in that hour, and on a
nonempty dataset `daily_efficiency` is an error exactly when the
whole-day span is zero. -/
theorem c6_zero_denominators :
    ∀ ds : List CleanRecord,
      ((∃ msg, ExportExcel.station_efficiency ds = .error msg) ↔
        ExportExcel.real_stations ds = 0) ∧
      ((∃ msg, ExportExcel.peak_hour_trips ds 8 = .error msg) ↔
        ∀ r ∈ ds, start_hour_of r ≠ 8) ∧
      ((∃ msg, ExportExcel.peak_hour_trips ds 18 = .error msg) ↔
        ∀ r ∈ ds, start_hour_of r ≠ 18) ∧
      (ds ≠ [] →
        ((∃ msg, ExportExcel.daily_efficiency ds = .error msg) ↔
          ExportExcel.date_range ds = some 0)) := by
  intro ds
  refine ⟨?_, peak_hour_trips_error_iff ds 8,
    peak_hour_trips_error_iff ds 18, ?_⟩
  · rw [ExportExcel.station_efficiency, pydiv_error_iff, Nat.cast_eq_zero]
  · intro hne
    obtain ⟨s, hs⟩ := span_seconds_isSome hne
    have hdr : ExportExcel.date_range ds = some (s.fdiv 86400) :=
      date_range_eq hs
    rw [daily_efficiency_eq hdr, pydiv_error_iff, Int.cast_eq_zero, hdr,
      Option.some_inj]

/-- Witness for C6 on the one-record dataset: its whole-day span is zero
and its daily efficiency is indeed an error. -/
theorem c6_witness :
    (∃ msg, ExportExcel.daily_efficiency dsA = .error msg) ↔
      ExportExcel.date_range dsA = some 0 :=
  (c6_zero_denominators dsA).2.2.2 (by decide)

/-! ### C7 -/

/-- Counterexample to C7: with a cached canonical dataset of one record
the combining stage is skipped, yet the run still terminates with a
non-zero status — the analysis period is zero days, so the daily
efficiency division raises an uncaught `ZeroDivisionError`.  The claim's
"exit code is zero whenever the cache exists" direction is false. -/
theorem c7_counterexample :
    (some dsA : Option (List CleanRecord)) ≠ none ∧
    Analysis.scriptExit (some dsA) [] = 1 := by
  constructor
  · simp
  · have hspan : span_seconds dsA = some 0 := by decide
    have hperiod : Analysis.analysis_period_days dsA = some 0 := by
      rw [analysis_period_days_eq hspan]
      norm_num
    have heff : Analysis.daily_trip_efficiency dsA =
        .error "ZeroDivisionError" := by
      rw [daily_trip_efficiency_eq hperiod, pydiv, if_pos rfl]
    have hkpi : Analysis.kpiStage dsA = .error "ZeroDivisionError" := by
      unfold Analysis.kpiStage
      rw [if_neg (show ¬dsA.isEmpty = true by decide), heff]
      rfl
    rw [scriptExit_ok (show Analysis.combine (some dsA) [] = .ok dsA
      from rfl), hkpi]

/-- C7 as amended: the combining stage fails (the script's `exit(1)`)
exactly when no cache exists and zero files were successfully processed;
the whole run exits 0 exactly when the combining stage yields a dataset
on which the KPI stage raises no error — an aggregate error (e.g. a
zero-day analysis period) also ends the run with a non-zero status even
when the cache exists. -/
theorem c7_amended :
    ∀ (cache : Option (List CleanRecord))
      (files : List (Except String (List RawRecord))),
      ((∃ msg, Analysis.combine cache files = .error msg) ↔
        cache = none ∧ Analysis.processed_dataframes files = []) ∧
      (Analysis.scriptExit cache files = 0 ↔
        ∃ ds, Analysis.combine cache files = .ok ds ∧
          ∃ q, Analysis.kpiStage ds = .ok q) := by
  intro cache files
  constructor
  · rcases cache with _ | ds
    · unfold Analysis.combine
      by_cases hps : (Analysis.processed_dataframes files).isEmpty
      · rw [if_pos hps]
        rw [List.isEmpty_iff] at hps
        exact ⟨fun _ => ⟨rfl, hps⟩, fun _ => ⟨_, rfl⟩⟩
      · rw [if_neg hps]
        constructor
        · rintro ⟨msg, hmsg⟩
          exact Except.noConfusion hmsg
        · rintro ⟨-, hps'⟩
          exact absurd (by rw [hps']; rfl) hps
    · unfold Analysis.combine
      exact ⟨fun ⟨_, hmsg⟩ => Except.noConfusion hmsg,
        fun ⟨hcn, _⟩ => Option.noConfusion hcn⟩
  · rcases hcb : Analysis.combine cache files with msg | ds
    · have hse : Analysis.scriptExit cache files = 1 := by
        unfold Analysis.scriptExit
        rw [hcb]
      rw [hse]
      constructor
      · intro h
        exact absurd h one_ne_zero
      · rintro ⟨ds', hds', -⟩
        exact Except.noConfusion hds'
    · rw [scriptExit_ok hcb]
      rcases hk : Analysis.kpiStage ds with msg | q
      · constructor
        · intro h
          exact absurd h one_ne_zero
        · rintro ⟨ds', hds', q, hq⟩
          rw [← Except.ok.inj hds', hk] at hq
          exact Except.noConfusion hq
      · exact iff_of_true rfl ⟨ds, rfl, q, hk⟩

/-! ### C8 -/

/-- C8: both scripts' satisfaction rate is 100 times the count of trips
with duration in the closed interval [5, 60] minutes divided by the
total trip count; on the three-record scenario (durations 10, 70 and
1500 minutes) cleaning admits exactly 2 records and both rates are
50%. -/
theorem c8_satisfaction_rate :
    (∀ ds : List CleanRecord, total_trips ds ≠ 0 →
      Analysis.user_satisfaction_rate ds =
        .ok (100 * (Analysis.optimal_duration_trips ds : ℚ) /
          (total_trips ds : ℚ)) ∧
      ExportExcel.satisfaction_rate ds =
        .ok (100 * (ExportExcel.optimal_trips ds : ℚ) /
          (total_trips ds : ℚ))) ∧
    (cleanFile scenario_raws).length = 2 ∧
    Analysis.user_satisfaction_rate (cleanFile scenario_raws) = .ok 50 ∧
    ExportExcel.satisfaction_rate (cleanFile scenario_raws) = .ok 50 := by
  have hgen : ∀ ds : List CleanRecord, total_trips ds ≠ 0 →
      Analysis.user_satisfaction_rate ds =
        .ok (100 * (Analysis.optimal_duration_trips ds : ℚ) /
          (total_trips ds : ℚ)) ∧
      ExportExcel.satisfaction_rate ds =
        .ok (100 * (ExportExcel.optimal_trips ds : ℚ) /
          (total_trips ds : ℚ)) := by
    intro ds h
    have hcast : (total_trips ds : ℚ) ≠ 0 := Nat.cast_ne_zero.mpr h
    have hpy : ∀ a : ℚ, pydiv a (total_trips ds) =
        .ok (a / (total_trips ds : ℚ)) := by
      intro a
      rw [pydiv, if_neg hcast]
    constructor
    · unfold Analysis.user_satisfaction_rate
      rw [hpy]
      simp only [Except.map]
      congr 1
      ring
    · unfold ExportExcel.satisfaction_rate
      rw [hpy]
      simp only [Except.map]
      congr 1
      ring
  refine ⟨hgen, by decide, ?_, ?_⟩
  · have h := (hgen (cleanFile scenario_raws) (by decide)).1
    have hopt : Analysis.optimal_duration_trips (cleanFile scenario_raws)
        = 1 := by decide
    have htot : total_trips (cleanFile scenario_raws) = 2 := by decide
    rw [h, hopt, htot]
    norm_num
  · have h := (hgen (cleanFile scenario_raws) (by decide)).2
    have hopt : ExportExcel.optimal_trips (cleanFile scenario_raws)
        = 1 := by decide
    have htot : total_trips (cleanFile scenario_raws) = 2 := by decide
    rw [h, hopt, htot]
    norm_num

/-- Witness for C8's universally quantified part at the one-record
dataset. -/
theorem c8_witness :
    total_trips dsA ≠ 0 ∧
    Analysis.user_satisfaction_rate dsA =
      .ok (100 * (Analysis.optimal_duration_trips dsA : ℚ) /
        (total_trips dsA : ℚ)) :=
  ⟨by decide, (c8_satisfaction_rate.1 dsA (by decide)).1⟩

/-! ### C10 -/

/-- C10: the day-of-week aggregate partitions the canonical dataset —
the per-day trip counts of `daily_data` (groupby day name, reordered
Monday-first) sum to the total number of records; no record is
double-counted or dropped. -/
theorem c10_day_of_week_partition :
    ∀ ds : List CleanRecord,
      ((ExportExcel.daily_data ds).map (fun p => p.2)).sum =
        total_trips ds := by
  intro ds
  unfold ExportExcel.daily_data total_trips
  rw [List.map_map]
  have hmap : ((fun p : String × Nat => p.2) ∘
      fun d => (d, groupSize day_name_of ds d)) =
        groupSize day_name_of ds := rfl
  rw [hmap]
  apply sum_map_groupSize
  · exact List.Nodup.filter _ (by decide)
  · intro r hr
    rw [List.mem_filter]
    exact ⟨day_name_of_mem_day_order r,
      decide_eq_true (List.mem_dedup.mpr (List.mem_map_of_mem _ hr))⟩

/-! ### C3 -/

/-- Counterexample to C3: on a dataset of two trips, one starting at the
`"Unknown"` sentinel and one at station `"A"`, the analysis script's
`average_station_efficiency` (the mean of per-station counts over
non-Unknown starts) is 1, while total trips ÷ distinct non-Unknown start
stations — the value the claim says both programs compute, and which the
export script's `station_efficiency` does compute — is 2. -/
theorem c3_counterexample :
    Analysis.average_station_efficiency dsStation = some 1 ∧
    ExportExcel.station_efficiency dsStation = .ok 2 ∧
    (1 : ℚ) ≠ 2 := by
  refine ⟨?_, ?_, by norm_num⟩
  · have h : Analysis.station_utilization_data dsStation = [1] := by decide
    rw [Analysis.average_station_efficiency, h]
    norm_num
  · have h1 : total_trips dsStation = 2 := by decide
    have h2 : ExportExcel.real_stations dsStation = 1 := by decide
    rw [ExportExcel.station_efficiency, h1, h2, pydiv,
      if_neg (by norm_num)]
    norm_num

/-- C3 as amended: the export script's `station_efficiency` is total
trips ÷ distinct non-Unknown start stations, but the analysis script's
`average_station_efficiency` is (trips with a non-Unknown start) ÷ that
same distinct count; the two agree exactly on datasets in which no trip
starts at `"Unknown"`. -/
theorem c3_amended :
    ∀ ds : List CleanRecord, ExportExcel.real_stations ds ≠ 0 →
      ExportExcel.station_efficiency ds =
        .ok ((total_trips ds : ℚ) / (ExportExcel.real_stations ds : ℚ)) ∧
      Analysis.average_station_efficiency ds =
        some (((Analysis.known_start ds).length : ℚ) /
          (ExportExcel.real_stations ds : ℚ)) ∧
      ((∀ r ∈ ds, r.start_station_name ≠ "Unknown") →
        Analysis.average_station_efficiency ds =
          some ((total_trips ds : ℚ) /
            (ExportExcel.real_stations ds : ℚ))) := by
  intro ds h
  have hcast : (ExportExcel.real_stations ds : ℚ) ≠ 0 :=
    Nat.cast_ne_zero.mpr h
  have hlen : (Analysis.station_utilization_data ds).length =
      ExportExcel.real_stations ds := by
    rw [Analysis.station_utilization_data, List.length_map]
    rfl
  have hsum : (Analysis.station_utilization_data ds).sum =
      (Analysis.known_start ds).length :=
    sum_groupKeys_map (·.start_station_name) (Analysis.known_start ds)
  have hne : (Analysis.station_utilization_data ds).isEmpty = false := by
    cases hcs : (Analysis.station_utilization_data ds).isEmpty
    · rfl
    · rw [List.isEmpty_iff] at hcs
      rw [hcs] at hlen
      exact absurd hlen.symm h
  have havg : Analysis.average_station_efficiency ds =
      some (((Analysis.known_start ds).length : ℚ) /
        (ExportExcel.real_stations ds : ℚ)) := by
    rw [Analysis.average_station_efficiency]
    simp only [hne, Bool.false_eq_true, if_false, hsum, hlen]
  refine ⟨?_, havg, ?_⟩
  · rw [ExportExcel.station_efficiency, pydiv, if_neg hcast]
  · intro hall
    have hks : Analysis.known_start ds = ds := by
      rw [Analysis.known_start]
      exact List.filter_eq_self.mpr
        (fun r hr => decide_eq_true (hall r hr))
    rw [havg, hks]
    rfl

/-- Witness for C3's amended theorem on the one-record dataset with a
known start station. -/
theorem c3_witness :
    ExportExcel.station_efficiency dsA =
      .ok ((total_trips dsA : ℚ) / (ExportExcel.real_stations dsA : ℚ)) ∧
    Analysis.average_station_efficiency dsA =
      some ((total_trips dsA : ℚ) / (ExportExcel.real_stations dsA : ℚ)) :=
  ⟨(c3_amended dsA (by decide)).1,
    (c3_amended dsA (by decide)).2.2 (by decide)⟩

/-! ### C5 -/

/-- Counterexample to C5: the export script's top-20 start-station table
is built from an unfiltered `value_counts`, so on a dataset whose trips
start at `"Unknown"` and `"A"` the table contains an `"Unknown"` row,
contradicting the claim that every top-N table contains only
non-`"Unknown"` rows. -/
theorem c5_counterexample :
    "Unknown" ∈ (ExportExcel.start_stations dsStation).map
      (fun q => q.1) := by
  decide

/-- C5 as amended: the analysis script's top-10 start/end tables (built
from the non-Unknown records) contain only non-`"Unknown"` stations, but
the export script's top-20 tables are unfiltered and may contain an
`"Unknown"` row; in every top-station table row of the export the
percentage is that station's count divided by the total trip count of
the whole canonical dataset, times 100. -/
theorem c5_amended :
    ∀ ds : List CleanRecord,
      (∀ p ∈ Analysis.real_stations_start ds, p.1 ≠ "Unknown") ∧
      (∀ p ∈ Analysis.real_stations_end ds, p.1 ≠ "Unknown") ∧
      (∀ q ∈ ExportExcel.start_stations ds,
        q.2.2 = ((q.2.1 : ℚ) / (total_trips ds : ℚ)) * 100) ∧
      (∀ q ∈ ExportExcel.end_stations ds,
        q.2.2 = ((q.2.1 : ℚ) / (total_trips ds : ℚ)) * 100) := by
  intro ds
  refine ⟨?_, ?_, ?_, ?_⟩
  · intro p hp
    obtain ⟨r, hr, hname⟩ :=
      List.mem_map.mp (mem_value_counts (List.mem_of_mem_take hp))
    rw [← hname]
    simpa using (List.mem_filter.mp hr).2
  · intro p hp
    obtain ⟨r, hr, hname⟩ :=
      List.mem_map.mp (mem_value_counts (List.mem_of_mem_take hp))
    rw [← hname]
    simpa using (List.mem_filter.mp hr).2
  · intro q hq
    obtain ⟨p, hp, hpq⟩ := List.mem_map.mp hq
    rw [← hpq]
  · intro q hq
    obtain ⟨p, hp, hpq⟩ := List.mem_map.mp hq
    rw [← hpq]

/-- Witness for C5's amended theorem: concrete rows of the analysis
top-10 table and of the export top-20 table of `dsStation`. -/
theorem c5_witness :
    (("A", 1) : String × Nat).1 ≠ "Unknown" ∧
    (("A", (1 : Nat),
        (((1 : Nat) : ℚ) / (total_trips dsStation : ℚ)) * 100) :
          String × Nat × ℚ).2.2 =
      (((("A", (1 : Nat),
        (((1 : Nat) : ℚ) / (total_trips dsStation : ℚ)) * 100) :
          String × Nat × ℚ).2.1 : ℚ) /
        (total_trips dsStation : ℚ)) * 100 := by
  constructor
  · exact (c5_amended dsStation).1 ("A", 1) (by decide)
  · have hvc : (value_counts dsStation (·.start_station_name)).take 20 =
        [("A", 1), ("Unknown", 1)] := by decide
    have hq : (("A", (1 : Nat),
        (((1 : Nat) : ℚ) / (total_trips dsStation : ℚ)) * 100) :
          String × Nat × ℚ) ∈ ExportExcel.start_stations dsStation := by
      unfold ExportExcel.start_stations
      rw [hvc]
      exact List.mem_map_of_mem
        (fun p : String × Nat =>
          (p.1, p.2, ((p.2 : ℚ) / (total_trips dsStation : ℚ)) * 100))
        (show (("A", 1) : String × Nat) ∈ [("A", 1), ("Unknown", 1)] by
          decide)
    exact (c5_amended dsStation).2.2.1 _ hq

/-- Witness for C9's amended theorem at the member record. -/
theorem c9_witness :
    (clean_10min.member_casual = raw_10min.member_casual ∧
      clean_10min.membership_indicator =
        (if clean_10min.member_casual = "member" then 1 else 0) ∧
      (raw_10min.member_casual = "member" ∨
          raw_10min.member_casual = "casual" →
        clean_10min.member_casual = "member" ∨
          clean_10min.member_casual = "casual")) :=
  c9_amended raw_10min clean_10min (by decide)

end Divvy
